import Mathlib

/-!
Shallow embedding of the Alembic migration `42762c37b7bc`
("Remove name column for notification policies", file
`2022_06_29_151832_42762c37b7bc_remove_name_column_for_notification_.py`).

The migration operates on a relational schema through Alembic's
`op.batch_alter_table` mechanism: the listed sub-operations are staged
against a copy of the target table and the real table is replaced only
when all of them succeed (SQLite batch mode recreates the table).  We
model the schema as a list of tables, each with named columns, named
indexes and a row count; each batch sub-operation is a fallible table
transformer, and `batch_alter_table` applies the whole group atomically.
-/

set_option autoImplicit false

namespace PrefectMigration

/-- SQL column types appearing in the schema; `varchar none` is the
unconstrained variable-length text type `sa.VARCHAR()`. -/
inductive SQLType where
  | varchar (limit : Option Nat)
  | text
  | integer
  | timestamp
  | boolean
deriving DecidableEq, Repr

/-- Whether a type is a variable-length text type. -/
def SQLType.isText : SQLType → Bool
  | .varchar _ => true
  | .text => true
  | _ => false

/-- A column descriptor: name, type, nullability and server default. -/
structure Column where
  name : String
  type : SQLType
  nullable : Bool
  defaultValue : Option String
deriving DecidableEq, Repr

/-- A secondary index: name, indexed column list, uniqueness flag. -/
structure Index where
  name : String
  columns : List String
  unique : Bool
deriving DecidableEq, Repr

/-- A table: name, columns, indexes, and how many rows it holds. -/
structure Table where
  name : String
  columns : List Column
  indexes : List Index
  rowCount : Nat
deriving DecidableEq, Repr

/-- A schema is the list of tables in the database. -/
abbrev Schema := List Table

/-- Engine-level errors surfaced by the batch sub-operations. -/
inductive MigErr where
  | noSuchTable
  | noSuchIndex
  | noSuchColumn
  | duplicateColumn
  | duplicateIndex
  | notNullViolation
  | unknownColumnInIndex
deriving DecidableEq, Repr

/-- The batch sub-operations used by this migration, mirroring the
`batch_op.*` calls in the source. -/
inductive BatchOp where
  | drop_index (name : String)
  | drop_column (name : String)
  | add_column (col : Column)
  | create_index (name : String) (columns : List String) (unique : Bool)
deriving DecidableEq, Repr

/-- Does the table have a column of this name? -/
def Table.hasColumn (t : Table) (n : String) : Bool :=
  t.columns.any (fun c => c.name == n)

/-- Does the table have an index of this name? -/
def Table.hasIndex (t : Table) (n : String) : Bool :=
  t.indexes.any (fun i => i.name == n)

/-- One batch sub-operation applied to the staged table.
`drop_index`/`drop_column` require the object to exist; `add_column`
rejects duplicates and enforces the not-null-without-default constraint
against existing rows (the batch recreation copies every row, so a new
not-null column with no default cannot be filled on a non-empty table);
`create_index` rejects duplicate names and unknown columns. -/
def applyOp (t : Table) : BatchOp → Except MigErr Table
  | .drop_index n =>
      if t.hasIndex n then
        .ok { t with indexes := t.indexes.filter (fun i => !(i.name == n)) }
      else .error .noSuchIndex
  | .drop_column n =>
      if t.hasColumn n then
        .ok { t with columns := t.columns.filter (fun c => !(c.name == n)) }
      else .error .noSuchColumn
  | .add_column c =>
      if t.hasColumn c.name then .error .duplicateColumn
      else if !c.nullable && c.defaultValue == none && decide (0 < t.rowCount) then
        .error .notNullViolation
      else .ok { t with columns := t.columns ++ [c] }
  | .create_index n cols uniq =>
      if t.hasIndex n then .error .duplicateIndex
      else if cols.all (fun cn => t.hasColumn cn) then
        .ok { t with indexes := t.indexes ++ [⟨n, cols, uniq⟩] }
      else .error .unknownColumnInIndex

/-- Apply the grouped sub-operations in order to the staged table,
stopping at the first failure. -/
def applyOps (t : Table) : List BatchOp → Except MigErr Table
  | [] => .ok t
  | op :: ops =>
      match applyOp t op with
      | .ok t' => applyOps t' ops
      | .error e => .error e

/-- Replace the first table of the given name (the one `find?` located). -/
def replaceTable : Schema → String → Table → Schema
  | [], _, _ => []
  | u :: us, n, t' => if u.name == n then t' :: us else u :: replaceTable us n t'

/-- Look up a table by name. -/
def findTable (s : Schema) (n : String) : Option Table :=
  s.find? (fun t => t.name == n)

/-- Model of `op.batch_alter_table`: stage the grouped sub-operations against the
named table; commit the rebuilt table only if every sub-operation
succeeds, otherwise leave the schema untouched and surface the error. -/
def batch_alter_table (n : String) (ops : List BatchOp) (s : Schema) :
    Schema × Option MigErr :=
  match findTable s n with
  | none => (s, some .noSuchTable)
  | some t =>
      match applyOps t ops with
      | .ok t' => (replaceTable s n t', none)
      | .error e => (s, some e)

/-- Source line `revision = "42762c37b7bc"`. -/
def revision : String := "42762c37b7bc"

/-- Source line `down_revision = "dff8da7a6c2c"`. -/
def down_revision : Option String := some "dff8da7a6c2c"

/-- Source line `branch_labels = None`. -/
def branch_labels : Option (List String) := none

/-- Source line `depends_on = None`. -/
def depends_on : Option (List String) := none

/-- The target table name. -/
def policyTable : String := "flow_run_notification_policy"

/-- The removed column's name. -/
def nameColumn : String := "name"

/-- The removed index's name. -/
def ixName : String := "ix_flow_run_notification_policy__name"

/-- The column re-added by `downgrade`:
`sa.Column("name", sa.VARCHAR(), nullable=False)`. -/
def readdedColumn : Column :=
  { name := nameColumn, type := .varchar none, nullable := false,
    defaultValue := none }

/-- The grouped sub-operations issued by `upgrade`, in source order. -/
def upgradeOps : List BatchOp :=
  [.drop_index ixName, .drop_column nameColumn]

/-- Function `upgrade()`: inside one batch alteration of
`flow_run_notification_policy`, drop the index then drop the column. -/
def upgrade (s : Schema) : Schema × Option MigErr :=
  batch_alter_table policyTable upgradeOps s

/-- The grouped sub-operations issued by `downgrade`, in source order. -/
def downgradeOps : List BatchOp :=
  [.add_column readdedColumn, .create_index ixName [nameColumn] false]

/-- Function `downgrade()`: inside one batch alteration of
`flow_run_notification_policy`, add the not-null `name` column then
recreate the non-unique index over it. -/
def downgrade (s : Schema) : Schema × Option MigErr :=
  batch_alter_table policyTable downgradeOps s

/-- The error component of a staged run, as propagated to the caller. -/
def errOf : Except MigErr Table → Option MigErr
  | .ok _ => none
  | .error e => some e

/-- A concrete `flow_run_notification_policy` table as it stands at
revision `dff8da7a6c2c`: an id column, the `name` column and its index,
and no rows. -/
def exampleTable : Table :=
  { name := policyTable,
    columns :=
      [{ name := "id", type := .integer, nullable := false, defaultValue := none },
       readdedColumn],
    indexes := [{ name := ixName, columns := [nameColumn], unique := false }],
    rowCount := 0 }

/-- An unrelated table, untouched by the migration. -/
def otherTable : Table :=
  { name := "flow_run",
    columns := [{ name := "id", type := .integer, nullable := false, defaultValue := none }],
    indexes := [],
    rowCount := 3 }

/-- A concrete schema used to instantiate the general theorems. -/
def exampleSchema : Schema := [otherTable, exampleTable]

/-- The policy table after `upgrade`, but holding two rows: the state in
which `downgrade` must fail on the not-null constraint. -/
def populatedUpgradedTable : Table :=
  { name := policyTable,
    columns := [{ name := "id", type := .integer, nullable := false, defaultValue := none }],
    indexes := [],
    rowCount := 2 }

/-- Schema around `populatedUpgradedTable`. -/
def populatedUpgradedSchema : Schema := [populatedUpgradedTable]

/-- A schema whose policy table still has the `name` column and index
but already holds one row. -/
def populatedNamedSchema : Schema :=
  [{ name := policyTable,
     columns :=
       [{ name := "id", type := .integer, nullable := false, defaultValue := none },
        readdedColumn],
     indexes := [{ name := ixName, columns := [nameColumn], unique := false }],
     rowCount := 1 }]

section Lemmas

/-- Filtering out every element whose name matches `n` leaves nothing
matching `n`. -/
theorem any_name_filter {α : Type} (f : α → String) (n : String) (l : List α) :
    (l.filter (fun a => !(f a == n))).any (fun a => f a == n) = false := by
  simp [List.any_filter]

/-- Looking up the table that `replaceTable` just replaced finds the
replacement, provided the replacement keeps the table's name. -/
theorem findTable_replaceTable (s : Schema) (n : String) (t t' : Table)
    (h : findTable s n = some t) (hn : t'.name = t.name) :
    findTable (replaceTable s n t') n = some t' := by
  induction s with
  | nil => simp [findTable] at h
  | cons u us ih =>
    by_cases hu : (u.name == n) = true
    · have hut : u = t := by
        simpa [findTable, List.find?_cons, hu] using h
      have ht' : (t'.name == n) = true := by
        rw [hn, ← hut]; exact hu
      simp [replaceTable, hu, findTable, List.find?_cons, ht']
    · have h' : findTable us n = some t := by
        simpa [findTable, List.find?_cons, hu] using h
      have hrec := ih h'
      simp only [findTable] at hrec
      simp [replaceTable, hu, findTable, List.find?_cons, hrec]

/-- Closed form of the staged `upgrade` run on a table that has the
column and the index: both drops succeed. -/
theorem applyOps_upgrade (t : Table)
    (hc : t.hasColumn nameColumn = true) (hi : t.hasIndex ixName = true) :
    applyOps t upgradeOps =
      .ok { t with
            columns := t.columns.filter (fun c => !(c.name == nameColumn)),
            indexes := t.indexes.filter (fun i => !(i.name == ixName)) } := by
  have hc' : Table.hasColumn
      { t with indexes := t.indexes.filter (fun i => !(i.name == ixName)) }
      nameColumn = true := hc
  simp [upgradeOps, applyOps, applyOp, hi, hc']

/-- Closed form of the staged `downgrade` run on an empty table lacking
the column and index: the add and the index creation succeed. -/
theorem applyOps_downgrade (t : Table)
    (hc : t.hasColumn nameColumn = false) (hi : t.hasIndex ixName = false)
    (hr : t.rowCount = 0) :
    applyOps t downgradeOps =
      .ok { t with
            columns := t.columns ++ [readdedColumn],
            indexes := t.indexes ++
              [{ name := ixName, columns := [nameColumn], unique := false }] } := by
  have hc' : t.columns.any (fun c => c.name == nameColumn) = false := hc
  have hi' : t.indexes.any (fun i => i.name == ixName) = false := hi
  simp [downgradeOps, applyOps, applyOp, Table.hasColumn, Table.hasIndex,
    readdedColumn, hr, hc', hi']

/-- Any successful staged `upgrade` run has exactly the drop-both shape. -/
theorem applyOps_upgrade_ok_shape (t t' : Table)
    (h : applyOps t upgradeOps = .ok t') :
    t'.columns = t.columns.filter (fun c => !(c.name == nameColumn)) ∧
      t'.indexes = t.indexes.filter (fun i => !(i.name == ixName)) ∧
      t'.name = t.name ∧ t'.rowCount = t.rowCount := by
  rcases hi : t.hasIndex ixName with _ | _
  · have hi' : t.indexes.any (fun i => i.name == ixName) = false := hi
    simp [upgradeOps, applyOps, applyOp, Table.hasIndex, hi'] at h
  · rcases hc : t.hasColumn nameColumn with _ | _
    · have hc' : t.columns.any (fun c => c.name == nameColumn) = false := hc
      have hi' : t.indexes.any (fun i => i.name == ixName) = true := hi
      simp [upgradeOps, applyOps, applyOp, Table.hasIndex, Table.hasColumn,
        hi', hc'] at h
    · rw [applyOps_upgrade t hc hi] at h
      injection h with h
      subst h
      exact ⟨rfl, rfl, rfl, rfl⟩

/-- Any successful staged `downgrade` run has exactly the append-both
shape: the column is appended, then the index. -/
theorem applyOps_downgrade_ok_shape (t t' : Table)
    (h : applyOps t downgradeOps = .ok t') :
    t'.columns = t.columns ++ [readdedColumn] ∧
      t'.indexes = t.indexes ++
        [{ name := ixName, columns := [nameColumn], unique := false }] ∧
      t'.name = t.name ∧ t'.rowCount = t.rowCount := by
  rcases hc : t.hasColumn nameColumn with _ | _
  · have hc' : t.columns.any (fun c => c.name == nameColumn) = false := hc
    rcases hr : t.rowCount with _ | k
    · rcases hi : t.hasIndex ixName with _ | _
      · have hi' : t.indexes.any (fun i => i.name == ixName) = false := hi
        simp [downgradeOps, applyOps, applyOp, Table.hasColumn, Table.hasIndex,
          readdedColumn, hc', hi', hr] at h
        rw [← h]
        exact ⟨rfl, rfl, rfl, by simp [hr]⟩
      · have hi' : t.indexes.any (fun i => i.name == ixName) = true := hi
        simp [downgradeOps, applyOps, applyOp, Table.hasColumn, Table.hasIndex,
          readdedColumn, hc', hi', hr] at h
    · have hpos : decide (0 < t.rowCount) = true := by simp [hr]
      simp [downgradeOps, applyOps, applyOp, Table.hasColumn,
        readdedColumn, hc', hpos] at h
  · have hc' : t.columns.any (fun c => c.name == nameColumn) = true := hc
    simp [downgradeOps, applyOps, applyOp, Table.hasColumn, readdedColumn,
      hc'] at h

/-- Erase from a table exactly the two objects this migration touches:
the `name` column and its index, when the table is the policy table. -/
def stripPolicy (t : Table) : Table :=
  if t.name == policyTable then
    { t with
      columns := t.columns.filter (fun c => !(c.name == nameColumn)),
      indexes := t.indexes.filter (fun i => !(i.name == ixName)) }
  else t

/-- Replacing the found table with one that agrees after stripping
leaves the stripped schema unchanged. -/
theorem map_strip_replaceTable (s : Schema) (t t' : Table)
    (h : findTable s policyTable = some t)
    (hs : stripPolicy t' = stripPolicy t) (hn : t'.name = t.name) :
    (replaceTable s policyTable t').map stripPolicy = s.map stripPolicy := by
  induction s with
  | nil => simp [findTable] at h
  | cons u us ih =>
    by_cases hu : (u.name == policyTable) = true
    · have hut : u = t := by
        simpa [findTable, List.find?_cons, hu] using h
      subst hut
      simp [replaceTable, hu, hs]
    · have h' : findTable us policyTable = some t := by
        simpa [findTable, List.find?_cons, hu] using h
      simp [replaceTable, hu, ih h']

/-- A batch alteration of the policy table by ops whose success runs
agree after stripping cannot change anything but the stripped objects. -/
theorem batch_strip_invariant (ops : List BatchOp) (s : Schema)
    (hops : ∀ t t', (t.name == policyTable) = true →
      applyOps t ops = .ok t' → stripPolicy t' = stripPolicy t ∧ t'.name = t.name) :
    (batch_alter_table policyTable ops s).1.map stripPolicy = s.map stripPolicy := by
  unfold batch_alter_table
  rcases hf : findTable s policyTable with _ | t
  · rfl
  · rcases ha : applyOps t ops with e | t'
    · simp [ha]
    · have hf' : List.find? (fun u => u.name == policyTable) s = some t := hf
      have hname := List.find?_some hf'
      obtain ⟨hs, hn⟩ := hops t t' hname ha
      simp only [ha]
      exact map_strip_replaceTable s t t' hf hs hn

/-- A successful staged `upgrade` run only changes stripped objects. -/
theorem strip_eq_of_upgrade_shape (t t' : Table)
    (hname : (t.name == policyTable) = true)
    (h : applyOps t upgradeOps = .ok t') :
    stripPolicy t' = stripPolicy t ∧ t'.name = t.name := by
  obtain ⟨h1, h2, h3, h4⟩ := applyOps_upgrade_ok_shape t t' h
  refine ⟨?_, h3⟩
  have hname' : (t'.name == policyTable) = true := by rw [h3]; exact hname
  simp [stripPolicy, hname, hname', Table.mk.injEq, h1, h2, h3, h4,
    List.filter_filter]

/-- A successful staged `downgrade` run only changes stripped objects. -/
theorem strip_eq_of_downgrade_shape (t t' : Table)
    (hname : (t.name == policyTable) = true)
    (h : applyOps t downgradeOps = .ok t') :
    stripPolicy t' = stripPolicy t ∧ t'.name = t.name := by
  obtain ⟨h1, h2, h3, h4⟩ := applyOps_downgrade_ok_shape t t' h
  refine ⟨?_, h3⟩
  have hname' : (t'.name == policyTable) = true := by rw [h3]; exact hname
  simp [stripPolicy, hname, hname', Table.mk.injEq, h1, h2, h3, h4,
    List.filter_append, readdedColumn]

/-- A batch alteration whose staged run fails commits nothing. -/
theorem batch_error_keeps_schema (n : String) (ops : List BatchOp) (s : Schema) :
    (batch_alter_table n ops s).2.isSome = true →
      (batch_alter_table n ops s).1 = s := by
  unfold batch_alter_table
  rcases hf : findTable s n with _ | t
  · intro _; rfl
  · rcases ha : applyOps t ops with e | t'
    · intro _; simp [ha]
    · intro hcontra
      simp [ha] at hcontra

/-- The error component of a batch alteration is exactly the error of
the staged run on the located table. -/
theorem batch_err_propagation (n : String) (ops : List BatchOp) (s : Schema)
    (t : Table) (ht : findTable s n = some t) :
    (batch_alter_table n ops s).2 = errOf (applyOps t ops) := by
  unfold batch_alter_table
  rcases ha : applyOps t ops with e | t' <;> simp [ht, ha, errOf]

end Lemmas

/-- Claim C6: the migration module's identity metadata is exactly
revision "42762c37b7bc", down revision "dff8da7a6c2c", no branch label,
and no extra dependency edge. -/
theorem revision_metadata_exact :
    revision = "42762c37b7bc" ∧ down_revision = some "dff8da7a6c2c" ∧
      branch_labels = none ∧ depends_on = none :=
  ⟨rfl, rfl, rfl, rfl⟩

/-- Claim C5: within `upgrade` the index
`ix_flow_run_notification_policy__name` is dropped before the `name`
column, both inside the single grouped batch alteration of
`flow_run_notification_policy`: the op list is exactly those two drops
in that order, `upgrade` is exactly that one batch call, and the staged
run sequences the column drop after the index drop. -/
theorem upgrade_drops_index_before_column :
    (upgradeOps = [BatchOp.drop_index ixName, BatchOp.drop_column nameColumn] ∧
      ∀ s : Schema, upgrade s = batch_alter_table policyTable upgradeOps s) ∧
    ∀ t : Table,
      applyOps t upgradeOps =
        match applyOp t (BatchOp.drop_index ixName) with
        | .ok t₁ => applyOp t₁ (BatchOp.drop_column nameColumn)
        | .error e => .error e := by
  refine ⟨⟨rfl, fun _ => rfl⟩, fun t => ?_⟩
  rcases h : applyOp t (BatchOp.drop_index ixName) with e | t₁
  · simp [upgradeOps, applyOps, h]
  · rcases h2 : applyOp t₁ (BatchOp.drop_column nameColumn) with e2 | t₂ <;>
      simp [upgradeOps, applyOps, h, h2]

/-- Claim C3: `downgrade` first adds the `name` column — unconstrained
variable-length text, not-null, no default — and then creates the
non-unique single-column index `ix_flow_run_notification_policy__name`,
in that order, inside one batch alteration; on any successful staged
run the column is appended and then the index is appended. -/
theorem downgrade_adds_column_then_creates_index :
    (downgradeOps =
        [BatchOp.add_column
           { name := nameColumn, type := SQLType.varchar none,
             nullable := false, defaultValue := none },
         BatchOp.create_index ixName [nameColumn] false] ∧
      ∀ s : Schema, downgrade s = batch_alter_table policyTable downgradeOps s) ∧
    ∀ t t' : Table, applyOps t downgradeOps = .ok t' →
      t'.columns = t.columns ++ [readdedColumn] ∧
        t'.indexes = t.indexes ++
          [{ name := ixName, columns := [nameColumn], unique := false }] :=
  ⟨⟨rfl, fun _ => rfl⟩, fun t t' h =>
    ⟨(applyOps_downgrade_ok_shape t t' h).1,
     (applyOps_downgrade_ok_shape t t' h).2.1⟩⟩

/-- The policy table after `upgrade`, with no rows. -/
def emptyUpgradedTable : Table :=
  { name := policyTable,
    columns := [{ name := "id", type := .integer, nullable := false, defaultValue := none }],
    indexes := [],
    rowCount := 0 }

/-- The table `downgrade` rebuilds from `emptyUpgradedTable`. -/
def downgradedWitnessTable : Table :=
  { name := policyTable,
    columns :=
      [{ name := "id", type := .integer, nullable := false, defaultValue := none },
       readdedColumn],
    indexes := [{ name := ixName, columns := [nameColumn], unique := false }],
    rowCount := 0 }

/-- Witness for C3 at a concrete table. -/
theorem downgrade_adds_column_then_creates_index_witness :
    applyOps emptyUpgradedTable downgradeOps = Except.ok downgradedWitnessTable ∧
      (downgradedWitnessTable.columns =
          emptyUpgradedTable.columns ++ [readdedColumn] ∧
        downgradedWitnessTable.indexes = emptyUpgradedTable.indexes ++
          [{ name := ixName, columns := [nameColumn], unique := false }]) :=
  ⟨rfl,
   downgrade_adds_column_then_creates_index.2 emptyUpgradedTable
     downgradedWitnessTable rfl⟩

/-- Claim C2: from any schema whose policy table has the `name` column
and its index, `upgrade` succeeds and afterwards the table's column
list no longer contains `name` and its index list no longer contains
`ix_flow_run_notification_policy__name`. -/
theorem upgrade_removes_name_column_and_index (s : Schema) (t : Table)
    (ht : findTable s policyTable = some t)
    (hc : t.hasColumn nameColumn = true)
    (hi : t.hasIndex ixName = true) :
    (upgrade s).2 = none ∧
      ∃ t', findTable (upgrade s).1 policyTable = some t' ∧
        t'.hasColumn nameColumn = false ∧ t'.hasIndex ixName = false := by
  have ha := applyOps_upgrade t hc hi
  have hbatch : upgrade s =
      (replaceTable s policyTable
        { t with
          columns := t.columns.filter (fun c => !(c.name == nameColumn)),
          indexes := t.indexes.filter (fun i => !(i.name == ixName)) }, none) := by
    unfold upgrade batch_alter_table
    simp only [ht, ha]
  refine ⟨by rw [hbatch], ?_⟩
  refine ⟨{ t with
      columns := t.columns.filter (fun c => !(c.name == nameColumn)),
      indexes := t.indexes.filter (fun i => !(i.name == ixName)) }, ?_, ?_, ?_⟩
  · rw [hbatch]
    exact findTable_replaceTable s policyTable t _ ht rfl
  · exact any_name_filter Column.name nameColumn t.columns
  · exact any_name_filter Index.name ixName t.indexes

/-- Witness for C2 at a concrete schema. -/
theorem upgrade_removes_name_column_and_index_witness :
    (findTable exampleSchema policyTable = some exampleTable ∧
      exampleTable.hasColumn nameColumn = true ∧
      exampleTable.hasIndex ixName = true) ∧
    ((upgrade exampleSchema).2 = none ∧
      ∃ t', findTable (upgrade exampleSchema).1 policyTable = some t' ∧
        t'.hasColumn nameColumn = false ∧ t'.hasIndex ixName = false) :=
  ⟨⟨by decide, by decide, by decide⟩,
   upgrade_removes_name_column_and_index exampleSchema exampleTable
     (by decide) (by decide) (by decide)⟩

/-- Claim C1 as stated is false on a policy table that already holds a
row: the schema meets the stated precondition (not-null text `name`
column, non-unique single-column index), `upgrade` succeeds, but
`downgrade` then fails on the not-null constraint, so the final schema
does not contain the `name` column again. -/
theorem roundtrip_claim_counterexample :
    (Option.map (fun t => t.hasColumn nameColumn)
        (findTable populatedNamedSchema policyTable) = some true ∧
      Option.map (fun t => t.hasIndex ixName)
        (findTable populatedNamedSchema policyTable) = some true ∧
      Option.map (fun t => decide (readdedColumn ∈ t.columns))
        (findTable populatedNamedSchema policyTable) = some true) ∧
    (upgrade populatedNamedSchema).2 = none ∧
    (downgrade (upgrade populatedNamedSchema).1).2 =
      some MigErr.notNullViolation ∧
    Option.map (fun t => t.hasColumn nameColumn)
      (findTable (downgrade (upgrade populatedNamedSchema).1).1 policyTable) =
        some false := by
  refine ⟨⟨rfl, rfl, rfl⟩, rfl, rfl, rfl⟩

/-- Claim C1 (amended: the table must also hold no rows, since the
re-added column is not-null with no default): from any schema whose
policy table has a not-null text `name` column, the non-unique
single-column index over it, and no rows, `upgrade` then `downgrade`
both succeed and yield a schema in which the column is present again
with the same name and not-null nullability and a text type, together
with an equivalent non-unique single-column index of the same name. -/
theorem upgrade_downgrade_roundtrip (s : Schema) (t : Table)
    (ht : findTable s policyTable = some t)
    (hcol : ∃ c ∈ t.columns,
      c.name = nameColumn ∧ c.nullable = false ∧ c.type.isText = true)
    (hix : ∃ i ∈ t.indexes,
      i.name = ixName ∧ i.unique = false ∧ i.columns = [nameColumn])
    (hrows : t.rowCount = 0) :
    (upgrade s).2 = none ∧ (downgrade (upgrade s).1).2 = none ∧
      ∃ t', findTable (downgrade (upgrade s).1).1 policyTable = some t' ∧
        (∃ c ∈ t'.columns,
          c.name = nameColumn ∧ c.nullable = false ∧ c.type.isText = true) ∧
        ∃ i ∈ t'.indexes,
          i.name = ixName ∧ i.unique = false ∧ i.columns = [nameColumn] := by
  have hc : t.hasColumn nameColumn = true := by
    obtain ⟨c, hmem, hname, -, -⟩ := hcol
    exact List.any_eq_true.mpr ⟨c, hmem, by simp [hname]⟩
  have hi : t.hasIndex ixName = true := by
    obtain ⟨i, hmem, hname, -, -⟩ := hix
    exact List.any_eq_true.mpr ⟨i, hmem, by simp [hname]⟩
  have ha := applyOps_upgrade t hc hi
  have hup : upgrade s =
      (replaceTable s policyTable
        { t with
          columns := t.columns.filter (fun c => !(c.name == nameColumn)),
          indexes := t.indexes.filter (fun i => !(i.name == ixName)) }, none) := by
    unfold upgrade batch_alter_table
    simp only [ht, ha]
  have hfind2 : findTable (upgrade s).1 policyTable =
      some { t with
        columns := t.columns.filter (fun c => !(c.name == nameColumn)),
        indexes := t.indexes.filter (fun i => !(i.name == ixName)) } := by
    rw [hup]
    exact findTable_replaceTable s policyTable t _ ht rfl
  have hc2 : Table.hasColumn
      { t with
        columns := t.columns.filter (fun c => !(c.name == nameColumn)),
        indexes := t.indexes.filter (fun i => !(i.name == ixName)) }
      nameColumn = false :=
    any_name_filter Column.name nameColumn t.columns
  have hi2 : Table.hasIndex
      { t with
        columns := t.columns.filter (fun c => !(c.name == nameColumn)),
        indexes := t.indexes.filter (fun i => !(i.name == ixName)) }
      ixName = false :=
    any_name_filter Index.name ixName t.indexes
  have ha2 := applyOps_downgrade
    { t with
      columns := t.columns.filter (fun c => !(c.name == nameColumn)),
      indexes := t.indexes.filter (fun i => !(i.name == ixName)) }
    hc2 hi2 hrows
  have hdn : downgrade (upgrade s).1 =
      (replaceTable (upgrade s).1 policyTable
        { t with
          columns := t.columns.filter (fun c => !(c.name == nameColumn))
            ++ [readdedColumn],
          indexes := t.indexes.filter (fun i => !(i.name == ixName))
            ++ [{ name := ixName, columns := [nameColumn], unique := false }] },
        none) := by
    unfold downgrade batch_alter_table
    simp only [hfind2, ha2]
  refine ⟨by rw [hup], by rw [hdn], ?_⟩
  refine ⟨{ t with
      columns := t.columns.filter (fun c => !(c.name == nameColumn))
        ++ [readdedColumn],
      indexes := t.indexes.filter (fun i => !(i.name == ixName))
        ++ [{ name := ixName, columns := [nameColumn], unique := false }] },
    ?_, ?_, ?_⟩
  · rw [hdn]
    exact findTable_replaceTable (upgrade s).1 policyTable _ _ hfind2 rfl
  · exact ⟨readdedColumn, by simp, rfl, rfl, rfl⟩
  · exact ⟨{ name := ixName, columns := [nameColumn], unique := false },
      by simp, rfl, rfl, rfl⟩

/-- Witness for the amended C1 at a concrete schema. -/
theorem upgrade_downgrade_roundtrip_witness :
    (findTable exampleSchema policyTable = some exampleTable ∧
      (∃ c ∈ exampleTable.columns,
        c.name = nameColumn ∧ c.nullable = false ∧ c.type.isText = true) ∧
      (∃ i ∈ exampleTable.indexes,
        i.name = ixName ∧ i.unique = false ∧ i.columns = [nameColumn]) ∧
      exampleTable.rowCount = 0) ∧
    ((upgrade exampleSchema).2 = none ∧
      (downgrade (upgrade exampleSchema).1).2 = none ∧
      ∃ t', findTable (downgrade (upgrade exampleSchema).1).1 policyTable =
          some t' ∧
        (∃ c ∈ t'.columns,
          c.name = nameColumn ∧ c.nullable = false ∧ c.type.isText = true) ∧
        ∃ i ∈ t'.indexes,
          i.name = ixName ∧ i.unique = false ∧ i.columns = [nameColumn]) :=
  ⟨⟨by decide, ⟨readdedColumn, by decide, rfl, rfl, rfl⟩,
    ⟨{ name := ixName, columns := [nameColumn], unique := false },
      by decide, rfl, rfl, rfl⟩, rfl⟩,
   upgrade_downgrade_roundtrip exampleSchema exampleTable (by decide)
     ⟨readdedColumn, by decide, rfl, rfl, rfl⟩
     ⟨{ name := ixName, columns := [nameColumn], unique := false },
       by decide, rfl, rfl, rfl⟩ rfl⟩

/-- Claim C4: if any sub-step of the grouped alteration fails, the
whole batch commits nothing — the schema (hence the table) is exactly
its pre-invocation value, for both `upgrade` and `downgrade`. -/
theorem failed_alteration_leaves_schema_unchanged (s : Schema) :
    ((upgrade s).2.isSome = true → (upgrade s).1 = s) ∧
      ((downgrade s).2.isSome = true → (downgrade s).1 = s) :=
  ⟨batch_error_keeps_schema policyTable upgradeOps s,
   batch_error_keeps_schema policyTable downgradeOps s⟩

/-- Witness for C4: on this schema `upgrade` fails (no such index) and
`downgrade` fails (not-null violation), and both leave it unchanged. -/
theorem failed_alteration_leaves_schema_unchanged_witness :
    ((upgrade populatedUpgradedSchema).2.isSome = true ∧
      (upgrade populatedUpgradedSchema).1 = populatedUpgradedSchema) ∧
    ((downgrade populatedUpgradedSchema).2.isSome = true ∧
      (downgrade populatedUpgradedSchema).1 = populatedUpgradedSchema) :=
  ⟨⟨by decide,
    (failed_alteration_leaves_schema_unchanged populatedUpgradedSchema).1
      (by decide)⟩,
   ⟨by decide,
    (failed_alteration_leaves_schema_unchanged populatedUpgradedSchema).2
      (by decide)⟩⟩

/-- Claim C7: neither function catches or translates failures — the
error surfaced by `upgrade`/`downgrade` is exactly the error of the
underlying staged run (and `none` exactly when the run succeeds). -/
theorem failures_propagate_unchanged (s : Schema) (t : Table)
    (ht : findTable s policyTable = some t) :
    (upgrade s).2 = errOf (applyOps t upgradeOps) ∧
      (downgrade s).2 = errOf (applyOps t downgradeOps) :=
  ⟨batch_err_propagation policyTable upgradeOps s t ht,
   batch_err_propagation policyTable downgradeOps s t ht⟩

/-- Witness for C7 at a concrete schema. -/
theorem failures_propagate_unchanged_witness :
    findTable exampleSchema policyTable = some exampleTable ∧
      ((upgrade exampleSchema).2 = errOf (applyOps exampleTable upgradeOps) ∧
        (downgrade exampleSchema).2 =
          errOf (applyOps exampleTable downgradeOps)) :=
  ⟨by decide,
   failures_propagate_unchanged exampleSchema exampleTable (by decide)⟩

/-- Claim C8: on a schema whose policy table lacks the `name` column
but already holds at least one row, `downgrade` fails with the
not-null constraint violation and leaves the schema unchanged, rather
than silently succeeding. -/
theorem downgrade_fails_on_populated_table (s : Schema) (t : Table)
    (ht : findTable s policyTable = some t)
    (hc : t.hasColumn nameColumn = false)
    (hr : 0 < t.rowCount) :
    downgrade s = (s, some MigErr.notNullViolation) := by
  have hc' : t.columns.any (fun c => c.name == nameColumn) = false := hc
  have hpos : decide (0 < t.rowCount) = true := decide_eq_true hr
  have ha : applyOps t downgradeOps = .error .notNullViolation := by
    simp [downgradeOps, applyOps, applyOp, Table.hasColumn, readdedColumn,
      hc', hpos]
  unfold downgrade batch_alter_table
  simp only [ht, ha]

/-- Witness for C8 at a concrete schema with two rows. -/
theorem downgrade_fails_on_populated_table_witness :
    (findTable populatedUpgradedSchema policyTable =
        some populatedUpgradedTable ∧
      populatedUpgradedTable.hasColumn nameColumn = false ∧
      0 < populatedUpgradedTable.rowCount) ∧
    downgrade populatedUpgradedSchema =
      (populatedUpgradedSchema, some MigErr.notNullViolation) :=
  ⟨⟨by decide, by decide, by decide⟩,
   downgrade_fails_on_populated_table populatedUpgradedSchema
     populatedUpgradedTable (by decide) (by decide) (by decide)⟩

/-- Claim C9: `upgrade` and `downgrade` touch only the `name` column
and the `ix_flow_run_notification_policy__name` index of the policy
table — after erasing exactly those two objects, the schemas before
and after either operation coincide (every other table, every other
column and index of the policy table, and its row count included). -/
theorem only_policy_name_objects_change (s : Schema) :
    (upgrade s).1.map stripPolicy = s.map stripPolicy ∧
      (downgrade s).1.map stripPolicy = s.map stripPolicy :=
  ⟨batch_strip_invariant upgradeOps s
     (fun t t' hn h => strip_eq_of_upgrade_shape t t' hn h),
   batch_strip_invariant downgradeOps s
     (fun t t' hn h => strip_eq_of_downgrade_shape t t' hn h)⟩

/-- Claim C10: both operations are deterministic — started from equal
schema states, they produce equal outcomes (resulting schema and
error alike). -/
theorem migrations_deterministic (s₁ s₂ : Schema) (h : s₁ = s₂) :
    upgrade s₁ = upgrade s₂ ∧ downgrade s₁ = downgrade s₂ := by
  subst h
  exact ⟨rfl, rfl⟩

/-- Witness for C10 at a concrete schema. -/
theorem migrations_deterministic_witness :
    exampleSchema = exampleSchema ∧
      (upgrade exampleSchema = upgrade exampleSchema ∧
        downgrade exampleSchema = downgrade exampleSchema) :=
  ⟨rfl, migrations_deterministic exampleSchema exampleSchema rfl⟩

end PrefectMigration
